import Mathlib

/-!
Shallow embedding of the Xendit payment provider for Medusa
(directory `packages/xendit-medusa`): the status mappers, the error
categorization, the gateway-client error handling, the provider service
facade operations, and the webhook route handler.

The repository ships two parallel flavors of the provider service, one
against the Payments API v3 (the "payment request" style) and one against
the Invoice / Payment-Link API.  Both are embedded side by side; the
invoice-flavor definitions carry an `Inv` suffix where the source reuses a
name across the two flavors.

TypeScript string unions are embedded as `String` (at runtime the switch
statements receive arbitrary strings, e.g. from webhook payloads, which is
why every switch has a default arm).  JavaScript `string | undefined`
values subject to truthiness tests are embedded as `Option String` with an
explicit `jsTruthy` predicate (`undefined` and `""` are falsy).  Network
effects are embedded by passing the single HTTP response an operation
observes as an explicit argument: each gateway-client function consumes
exactly one response, which also makes the absence of any automatic retry
structural.
-/

namespace XenditMedusa

/-- Medusa `PaymentSessionStatus` values used by the provider. -/
inductive PaymentSessionStatus where
  | authorized
  | pending
  | error
  | canceled
  | captured
  deriving DecidableEq

/-- Medusa `MedusaError.Types` values used by the provider. -/
inductive MedusaErrorType where
  | invalidData
  | unauthorized
  | notFound
  | unexpectedState
  | invalidArgument
  deriving DecidableEq

/-- A thrown JavaScript `Error`.  `medusaType` is `some t` when the error
was constructed as `new MedusaError(t, message)` and `none` for a plain
`new Error(message)`. -/
structure JsError where
  message : String
  medusaType : Option MedusaErrorType := none
  deriving DecidableEq

/-- JavaScript truthiness of a `string | undefined` value: `undefined` and
the empty string are falsy. -/
def jsTruthy : Option String → Bool
  | none => false
  | some s => s ≠ ""

/-- service.ts `mapXenditStatusToMedusa` (payment-request flavor): switch
over the gateway payment status with a default arm returning PENDING. -/
def mapXenditStatusToMedusa (status : String) : PaymentSessionStatus :=
  if status = "SUCCEEDED" then .authorized
  else if status = "REQUIRES_ACTION" then .pending
  else if status = "FAILED" then .error
  else if status = "CANCELED" then .canceled
  else if status = "EXPIRED" then .canceled
  else .pending

/-- service.ts `mapInvoiceStatusToMedusa` (invoice flavor): switch over the
gateway invoice status with a default arm returning PENDING. -/
def mapInvoiceStatusToMedusa (status : String) : PaymentSessionStatus :=
  if status = "PAID" then .authorized
  else if status = "PENDING" then .pending
  else if status = "EXPIRED" then .canceled
  else .pending

/-- service.ts `mapXenditErrorToMedusaType`: categorize a gateway error
from the HTTP status code and the gateway error code.  The source's
`errorCode.includes("VALIDATION")` is the substring test. -/
def mapXenditErrorToMedusaType (statusCode : Nat) (errorCode : String) : MedusaErrorType :=
  if statusCode = 401 ∨ errorCode = "API_VALIDATION_ERROR" then .unauthorized
  else if statusCode = 404 then .notFound
  else if statusCode = 400 ∨ "VALIDATION".toList <:+: errorCode.toList then .invalidData
  else if 500 ≤ statusCode then .unexpectedState
  else .invalidData

/-- service.ts `buildError`: wrap any caught error into a
`MedusaError(INVALID_DATA, message + ": " + underlying message)`.  In this
embedding every thrown value is a `JsError` (an `Error` instance), so the
source's `instanceof Error` test is always true and its `.message` is
used. -/
def buildError (message : String) (error : JsError) : JsError :=
  { message := message ++ ": " ++ error.message, medusaType := some .invalidData }

/-- Parsed JSON body of a gateway error response (types.ts `XenditError`):
`errors` holds the messages of the sub-error list, empty when the list is
absent or empty (both falsy under the source's `errorData.errors?.length`
test). -/
structure XenditErrorBody where
  error_code : String
  message : String
  errors : List String
  deriving DecidableEq

/-- A non-2xx HTTP response as observed by `handleApiError`: status code,
status text, the `retry-after` header (`none` when absent) and the JSON
parse of the body (`none` when `response.json()` throws). -/
structure ErrorResponse where
  status : Nat
  statusText : String
  retryAfter : Option String
  body : Option XenditErrorBody
  deriving DecidableEq

/-- JavaScript template interpolation of a `string | null` value. -/
def jsInterp : Option String → String
  | none => "null"
  | some s => s

/-- service.ts `handleApiError`: a 429 is turned into the rate-limit error
carrying the `retry-after` header value in its message, before any body
parsing; otherwise an unparsable body falls back to the status text, and a
parsed body is categorized via `mapXenditErrorToMedusaType`. -/
def handleApiError (resp : ErrorResponse) : JsError :=
  if resp.status = 429 then
    { message := "Xendit API rate limit exceeded. Please retry after "
        ++ jsInterp resp.retryAfter ++ " seconds."
      medusaType := some .invalidData }
  else
    match resp.body with
    | none =>
      { message := "Xendit API error: " ++ resp.statusText ++ " (" ++ toString resp.status ++ ")"
        medusaType := some .invalidData }
    | some errorData =>
      let errorMessage :=
        if errorData.errors ≠ [] then String.intercalate ", " errorData.errors
        else errorData.message
      { message := "Xendit API error [" ++ errorData.error_code ++ "]: " ++ errorMessage
        medusaType := some (mapXenditErrorToMedusaType resp.status errorData.error_code) }

/-- The fields of a Payments API v3 payment-request object (types.ts
`XenditPaymentResponse`) that the provider service reads. -/
structure XenditPaymentResponse where
  id : String
  reference_id : String
  status : String
  request_amount : Int
  captured_amount : Option Int
  currency : String
  channel_code : String
  deriving DecidableEq

/-- The fields of an Invoice API invoice object (types.ts
`XenditInvoiceResponse`) that the provider service reads. -/
structure XenditInvoiceResponse where
  id : String
  external_id : String
  status : String
  amount : Int
  paid_amount : Option Int
  payment_id : Option String
  invoice_url : String
  deriving DecidableEq

/-- The fields of a refund object (types.ts `XenditRefundResponse`) that
the provider service reads. -/
structure XenditRefundResponse where
  id : String
  status : String
  amount : Int
  deriving DecidableEq

/-- Outcome of the single `fetch` a gateway-client call performs: a 2xx
response with a parsed body of type `α`, or a non-2xx response. -/
inductive FetchOutcome (α : Type) where
  | ok (value : α)
  | err (resp : ErrorResponse)
  deriving DecidableEq

/-- service.ts `createPaymentRequest`: one `fetch` of
`POST /v3/payment_requests`; a non-ok response goes through
`handleApiError`.  The single `FetchOutcome` argument is the one response
observed — the client never retries. -/
def createPaymentRequest (result : FetchOutcome XenditPaymentResponse) :
    Except JsError XenditPaymentResponse :=
  match result with
  | .ok payment => .ok payment
  | .err resp => .error (handleApiError resp)

/-- service.ts `retrievePaymentFromXendit`: one `fetch` of
`GET /v3/payment_requests/{id}`; a 404 becomes a dedicated NOT_FOUND
error, any other non-ok response goes through `handleApiError`. -/
def retrievePaymentFromXendit (paymentId : String)
    (result : FetchOutcome XenditPaymentResponse) : Except JsError XenditPaymentResponse :=
  match result with
  | .ok payment => .ok payment
  | .err resp =>
    if resp.status = 404 then
      .error { message := "Payment request not found: " ++ paymentId
               medusaType := some .notFound }
    else .error (handleApiError resp)

/-- service.ts (invoice flavor) `retrieveInvoice`: one `fetch` of
`GET /v2/invoices/{id}` with the same 404 special case. -/
def retrieveInvoice (invoiceId : String)
    (result : FetchOutcome XenditInvoiceResponse) : Except JsError XenditInvoiceResponse :=
  match result with
  | .ok invoice => .ok invoice
  | .err resp =>
    if resp.status = 404 then
      .error { message := "Invoice not found: " ++ invoiceId
               medusaType := some .notFound }
    else .error (handleApiError resp)

/-- service.ts (invoice flavor) `createInvoice`: one `fetch` of
`POST /v2/invoices`. -/
def createInvoice (result : FetchOutcome XenditInvoiceResponse) :
    Except JsError XenditInvoiceResponse :=
  match result with
  | .ok invoice => .ok invoice
  | .err resp => .error (handleApiError resp)

/-- service.ts `createRefund`: one `fetch` of `POST /refunds`. -/
def createRefund (result : FetchOutcome XenditRefundResponse) :
    Except JsError XenditRefundResponse :=
  match result with
  | .ok refund => .ok refund
  | .err resp => .error (handleApiError resp)

/-! ### Provider service facade (payment-request flavor)

Each facade operation starts by awaiting a gateway-client call; the
embedding passes that call's `Except` outcome (for retrieval-based
operations) or `FetchOutcome` (for creation-based ones) as an explicit
argument. -/

/-- Output of `getPaymentStatus`: a Medusa session status plus the data
record (the retrieved object, or `{}` on failure). -/
structure GetPaymentStatusOutput where
  status : PaymentSessionStatus
  data : Option XenditPaymentResponse
  deriving DecidableEq

/-- service.ts `getPaymentStatus` (payment-request flavor): the whole body
is inside `try`; any retrieval failure is caught and degraded to an
`ERROR` status with empty data — the function always returns, never
throws. -/
def getPaymentStatus (retrieval : Except JsError XenditPaymentResponse) :
    GetPaymentStatusOutput :=
  match retrieval with
  | .ok payment =>
    { status := mapXenditStatusToMedusa payment.status, data := some payment }
  | .error _ => { status := .error, data := none }

/-- Output of the invoice-flavor `getPaymentStatus`. -/
structure GetPaymentStatusInvOutput where
  status : PaymentSessionStatus
  data : Option XenditInvoiceResponse
  deriving DecidableEq

/-- service.ts `getPaymentStatus` (invoice flavor): same catch-all
degradation to an `ERROR` status. -/
def getPaymentStatusInv (retrieval : Except JsError XenditInvoiceResponse) :
    GetPaymentStatusInvOutput :=
  match retrieval with
  | .ok invoice =>
    { status := mapInvoiceStatusToMedusa invoice.status, data := some invoice }
  | .error _ => { status := .error, data := none }

/-- The `data` record `capturePayment` returns on success
(payment-request flavor). -/
structure CapturePaymentData where
  id : String
  status : String
  captured_amount : Option Int
  deriving DecidableEq

/-- service.ts `capturePayment` (payment-request flavor): succeeds exactly
when the retrieved status is `"SUCCEEDED"`; otherwise it throws the
"Payment not ready for capture" error built from the observed status,
which the surrounding `catch` re-wraps with the operation context.  A
failed retrieval is wrapped the same way. -/
def capturePayment (retrieval : Except JsError XenditPaymentResponse) :
    Except JsError CapturePaymentData :=
  match retrieval with
  | .error e => .error (buildError "An error occurred in capturePayment" e)
  | .ok payment =>
    if payment.status = "SUCCEEDED" then
      .ok { id := payment.id, status := payment.status
            captured_amount := payment.captured_amount }
    else
      .error (buildError "An error occurred in capturePayment"
        (buildError "Payment not ready for capture"
          { message := "Payment status: " ++ payment.status }))

/-- The `data` record the invoice-flavor `capturePayment` returns on
success. -/
structure CapturePaymentInvData where
  id : String
  external_id : String
  status : String
  paid_amount : Option Int
  payment_id : Option String
  deriving DecidableEq

/-- service.ts `capturePayment` (invoice flavor): succeeds exactly when
the retrieved invoice status is `"PAID"`; otherwise the "Payment not ready
for capture" error built from the observed status is thrown and re-wrapped
by the surrounding `catch`. -/
def capturePaymentInv (retrieval : Except JsError XenditInvoiceResponse) :
    Except JsError CapturePaymentInvData :=
  match retrieval with
  | .error e => .error (buildError "An error occurred in capturePayment" e)
  | .ok invoice =>
    if invoice.status = "PAID" then
      .ok { id := invoice.id, external_id := invoice.external_id
            status := invoice.status, paid_amount := invoice.paid_amount
            payment_id := invoice.payment_id }
    else
      .error (buildError "An error occurred in capturePayment"
        (buildError "Payment not ready for capture"
          { message := "Invoice status: " ++ invoice.status }))

/-- The `data` record `authorizePayment` returns. -/
structure AuthorizePaymentData where
  id : String
  status : String
  captured_amount : Option Int
  deriving DecidableEq

/-- Output of `authorizePayment`: the mapped status plus data. -/
structure AuthorizePaymentOutput where
  status : PaymentSessionStatus
  data : AuthorizePaymentData
  deriving DecidableEq

/-- service.ts `authorizePayment` (payment-request flavor): retrieve, map
the status, and return; a failure is wrapped with the operation
context. -/
def authorizePayment (retrieval : Except JsError XenditPaymentResponse) :
    Except JsError AuthorizePaymentOutput :=
  match retrieval with
  | .ok payment =>
    .ok { status := mapXenditStatusToMedusa payment.status
          data := { id := payment.id, status := payment.status
                    captured_amount := payment.captured_amount } }
  | .error e => .error (buildError "An error occurred in authorizePayment" e)

/-- The `data` record `refundPayment` returns. -/
structure RefundPaymentData where
  id : String
  status : String
  amount : Int
  refund_id : String
  deriving DecidableEq

/-- service.ts `refundPayment`: create the refund and return its snapshot;
a failure is wrapped with the operation context. -/
def refundPayment (creation : Except JsError XenditRefundResponse) :
    Except JsError RefundPaymentData :=
  match creation with
  | .ok refund =>
    .ok { id := refund.id, status := refund.status
          amount := refund.amount, refund_id := refund.id }
  | .error e => .error (buildError "An error occurred in refundPayment" e)

/-- The `data` record `cancelPayment` returns (payment-request flavor:
cancel is a plain retrieval, the gateway has no cancel endpoint for
payment requests). -/
structure CancelPaymentData where
  id : String
  status : String
  deriving DecidableEq

/-- service.ts `cancelPayment` (payment-request flavor): a no-op
retrieval; a failure is wrapped with the operation context. -/
def cancelPayment (retrieval : Except JsError XenditPaymentResponse) :
    Except JsError CancelPaymentData :=
  match retrieval with
  | .ok payment => .ok { id := payment.id, status := payment.status }
  | .error e => .error (buildError "An error occurred in cancelPayment" e)

/-! ### initiatePayment and updatePayment

`initiatePayment` reads two ambient values — `Date.now()` (a millisecond
timestamp) and `Math.random().toString(36).substring(7)` (a random
base-36 suffix, possibly empty) — and performs one creation call.  The
embedding passes the timestamp, the suffix, and the gateway (a function
from the built request to the one response observed) explicitly. -/

/-- The id-generation expression shared by both flavors of
`initiatePayment`:
`medusa_${Date.now()}_${Math.random().toString(36).substring(7)}`.
`Nat.repr` is the decimal rendering of the interpolated number. -/
def referenceId (now : Nat) (rand : String) : String :=
  "medusa_" ++ Nat.repr now ++ "_" ++ rand

/-- The facade input fields `initiatePayment` reads (framework
`InitiatePaymentInput`, restricted to what the source uses to build the
gateway request). -/
structure InitiateInput where
  amount : Int
  currency_code : String
  channel_code : Option String
  deriving DecidableEq

/-- The gateway request body built by `initiatePayment` (types.ts
`XenditPaymentRequest`, restricted to the fields built from the
input). -/
structure XenditPaymentRequest where
  reference_id : String
  requestType : String
  currency : String
  request_amount : Int
  channel_code : String
  deriving DecidableEq

/-- JavaScript `toUpperCase()` as used on currency codes: uppercase every
character. -/
def jsToUpperCase (s : String) : String := ⟨s.data.map Char.toUpper⟩

/-- The request-building part of service.ts `initiatePayment`
(payment-request flavor): `(data?.channel_code) || "OVO"` is a JavaScript
truthiness default. -/
def buildPaymentRequest (input : InitiateInput) (now : Nat) (rand : String) :
    XenditPaymentRequest :=
  { reference_id := referenceId now rand
    requestType := "PAY"
    currency := jsToUpperCase input.currency_code
    request_amount := input.amount
    channel_code := if jsTruthy input.channel_code then input.channel_code.getD "OVO" else "OVO" }

/-- The `data` record `initiatePayment` returns (the snapshot of
gateway-visible fields it copies out of the response). -/
structure InitiatePaymentData where
  id : String
  reference_id : String
  status : String
  amount : Int
  captured_amount : Option Int
  currency : String
  channel_code : String
  deriving DecidableEq

/-- Output of `initiatePayment`: the new intent id plus the snapshot. -/
structure InitiatePaymentOutput where
  id : String
  data : InitiatePaymentData
  deriving DecidableEq

/-- service.ts `initiatePayment` (payment-request flavor): build the
request, create it through the gateway, and return the response snapshot;
any failure is wrapped with the operation context.  `gateway` maps the
built request to the one HTTP response this call observes. -/
def initiatePayment (input : InitiateInput) (now : Nat) (rand : String)
    (gateway : XenditPaymentRequest → FetchOutcome XenditPaymentResponse) :
    Except JsError InitiatePaymentOutput :=
  match createPaymentRequest (gateway (buildPaymentRequest input now rand)) with
  | .ok response =>
    .ok { id := response.id
          data := { id := response.id, reference_id := response.reference_id
                    status := response.status, amount := response.request_amount
                    captured_amount := response.captured_amount
                    currency := response.currency
                    channel_code := response.channel_code } }
  | .error e => .error (buildError "An error occurred in initiatePayment" e)

/-- service.ts `updatePayment` (payment-request flavor): gateway intents
are immutable, so the body just calls `initiatePayment` on the same input
inside its own `try`/`catch`; an error coming back from the initiate is
re-wrapped with the `updatePayment` context. -/
def updatePayment (input : InitiateInput) (now : Nat) (rand : String)
    (gateway : XenditPaymentRequest → FetchOutcome XenditPaymentResponse) :
    Except JsError InitiatePaymentOutput :=
  match initiatePayment input now rand gateway with
  | .ok output => .ok output
  | .error e => .error (buildError "An error occurred in updatePayment" e)

/-! ### Webhook route handler

`api/webhooks/xendit/route.ts` `POST` (invoice flavor).  Inputs: the
configured secret `process.env.XENDIT_WEBHOOK_TOKEN` (`undefined` or a
string), the `x-callback-token` request header (`undefined` or a string),
and the two payload fields the handler checks (`payload.id` and
`payload.status`, each `undefined` or a string).  The embedding records
the HTTP status of the response sent and whether the
missing-token security warning was logged. -/

/-- Response of one webhook `POST` call: the HTTP status sent plus whether
the "XENDIT_WEBHOOK_TOKEN not configured" security warning was logged. -/
structure WebhookResponse where
  httpStatus : Nat
  warnedNoToken : Bool
  deriving DecidableEq

/-- route.ts `POST`: verification first (401 on missing or mismatched
`x-callback-token` when a secret is configured, a logged warning when no
secret is configured), then payload-shape validation (400 when `id` or
`status` is falsy), then the 200 acknowledgment. -/
def webhookPOST (envToken callbackToken invoiceId status : Option String) :
    WebhookResponse :=
  if jsTruthy envToken then
    if ¬ jsTruthy callbackToken then { httpStatus := 401, warnedNoToken := false }
    else if callbackToken ≠ envToken then { httpStatus := 401, warnedNoToken := false }
    else if ¬ jsTruthy invoiceId ∨ ¬ jsTruthy status then
      { httpStatus := 400, warnedNoToken := false }
    else { httpStatus := 200, warnedNoToken := false }
  else
    if ¬ jsTruthy invoiceId ∨ ¬ jsTruthy status then
      { httpStatus := 400, warnedNoToken := true }
    else { httpStatus := 200, warnedNoToken := true }

/-! ### Helper lemmas for the reference-id analysis -/

/-- Every character `Nat.digitChar` can produce differs from the
underscore used as the separator in `referenceId`. -/
lemma digitChar_ne_underscore (n : Nat) : Nat.digitChar n ≠ '_' := by
  rcases Nat.lt_or_ge n 16 with h | h
  · interval_cases n <;> decide
  · unfold Nat.digitChar
    repeat rw [if_neg (by omega)]
    decide

/-- Characters of `Nat.toDigitsCore` output come from the accumulator or
from `Nat.digitChar`. -/
lemma mem_toDigitsCore_ten : ∀ (f n : Nat) (l : List Char) (c : Char),
    c ∈ Nat.toDigitsCore 10 f n l → c ∈ l ∨ ∃ m, c = Nat.digitChar m := by
  intro f
  induction f with
  | zero => intro n l c h; exact Or.inl h
  | succ f ih =>
    intro n l c h
    unfold Nat.toDigitsCore at h
    dsimp only at h
    split at h
    · rcases List.mem_cons.mp h with h | h
      · exact Or.inr ⟨n % 10, h⟩
      · exact Or.inl h
    · rcases ih _ _ _ h with h | h
      · rcases List.mem_cons.mp h with h | h
        · exact Or.inr ⟨n % 10, h⟩
        · exact Or.inl h
      · exact Or.inr h

/-- The decimal rendering of a natural number contains no underscore. -/
lemma underscore_not_mem_repr (n : Nat) : '_' ∉ (Nat.repr n).data := by
  intro h
  have h2 : '_' ∈ Nat.toDigitsCore 10 (n + 1) n [] := h
  rcases mem_toDigitsCore_ten _ _ _ _ h2 with h3 | ⟨m, hm⟩
  · simp at h3
  · exact digitChar_ne_underscore m hm.symm

/-- Splitting at a separator absent from both left parts is unambiguous. -/
lemma append_underscore_inj : ∀ (l₁ l₂ m₁ m₂ : List Char), '_' ∉ l₁ → '_' ∉ l₂ →
    l₁ ++ '_' :: m₁ = l₂ ++ '_' :: m₂ → l₁ = l₂ ∧ m₁ = m₂ := by
  intro l₁
  induction l₁ with
  | nil =>
    intro l₂ m₁ m₂ _ h₂ heq
    cases l₂ with
    | nil => simpa using heq
    | cons b t =>
      simp only [List.nil_append, List.cons_append, List.cons.injEq] at heq
      exact absurd (heq.1 ▸ List.mem_cons_self b t) h₂
  | cons a s ih =>
    intro l₂ m₁ m₂ h₁ h₂ heq
    cases l₂ with
    | nil =>
      simp only [List.nil_append, List.cons_append, List.cons.injEq] at heq
      exact absurd (heq.1 ▸ List.mem_cons_self a s) h₁
    | cons b t =>
      simp only [List.cons_append, List.cons.injEq] at heq
      have hrest := ih t m₁ m₂ (fun hm => h₁ (List.mem_cons_of_mem a hm))
        (fun hm => h₂ (List.mem_cons_of_mem b hm)) heq.2
      exact ⟨by rw [heq.1, hrest.1], hrest.2⟩

/-! ### Claim theorems -/

/-- Claim C1: with a configured (nonempty) webhook secret `S`, a request
whose `x-callback-token` header equals `S` passes verification (the
response is the 200 acknowledgment or the 400 shape rejection, never 401,
and no missing-token warning is logged); a header differing from `S` is
rejected 401; a missing header is rejected 401; with no secret configured,
every request passes verification and the security warning is logged. -/
theorem webhook_token_verification (S : String) (hS : S ≠ "")
    (invoiceId status : Option String) :
    ((webhookPOST (some S) (some S) invoiceId status).httpStatus = 200 ∨
      (webhookPOST (some S) (some S) invoiceId status).httpStatus = 400) ∧
    (webhookPOST (some S) (some S) invoiceId status).warnedNoToken = false ∧
    (∀ v, v ≠ S → (webhookPOST (some S) (some v) invoiceId status).httpStatus = 401) ∧
    (webhookPOST (some S) none invoiceId status).httpStatus = 401 ∧
    (∀ header,
      ((webhookPOST none header invoiceId status).httpStatus = 200 ∨
        (webhookPOST none header invoiceId status).httpStatus = 400) ∧
      (webhookPOST none header invoiceId status).warnedNoToken = true) := by
  have htrue : jsTruthy (some S) = true := by simp [jsTruthy, hS]
  refine ⟨?_, ?_, ?_, ?_, ?_⟩
  · simp [webhookPOST, htrue]
    split <;> simp_all
  · simp [webhookPOST, htrue]
    split <;> simp_all
  · intro v hv
    by_cases hv0 : v = ""
    · simp [webhookPOST, jsTruthy, hS, hv0]
    · simp [webhookPOST, jsTruthy, hS, hv0, hv]
  · simp [webhookPOST, jsTruthy, hS]
  · intro header
    constructor
    · simp [webhookPOST, jsTruthy]
      split <;> simp_all
    · simp [webhookPOST, jsTruthy]
      split <;> simp_all

/-- Witness for C1: a concrete mismatched token is rejected 401. -/
theorem webhook_token_verification_witness :
    (webhookPOST (some "whsec_1") (some "wrong") (some "inv_1") (some "PAID")).httpStatus = 401 :=
  (webhook_token_verification "whsec_1" (by decide) (some "inv_1") (some "PAID")).2.2.1
    "wrong" (by decide)

/-- Claim C2: for a retrieved intent, capture succeeds exactly when the
retrieved status is the terminal success value ("SUCCEEDED" for the
payment-request flavor, "PAID" for the invoice flavor); for every other
retrieved status it fails with the "Payment not ready for capture" error
carrying the observed status in its message. -/
theorem capturePayment_succeeds_iff_terminal :
    ∀ (p : XenditPaymentResponse) (inv : XenditInvoiceResponse),
      ((∃ d, capturePayment (.ok p) = .ok d) ↔ p.status = "SUCCEEDED") ∧
      (p.status ≠ "SUCCEEDED" →
        capturePayment (.ok p) = .error
          { message :=
              "An error occurred in capturePayment: Payment not ready for capture: Payment status: "
                ++ p.status
            medusaType := some .invalidData }) ∧
      ((∃ d, capturePaymentInv (.ok inv) = .ok d) ↔ inv.status = "PAID") ∧
      (inv.status ≠ "PAID" →
        capturePaymentInv (.ok inv) = .error
          { message :=
              "An error occurred in capturePayment: Payment not ready for capture: Invoice status: "
                ++ inv.status
            medusaType := some .invalidData }) := by
  intro p inv
  refine ⟨⟨?_, ?_⟩, ?_, ⟨?_, ?_⟩, ?_⟩
  · rintro ⟨d, hd⟩
    by_cases h : p.status = "SUCCEEDED"
    · exact h
    · simp [capturePayment, h, buildError] at hd
  · intro h
    refine ⟨{ id := p.id, status := p.status, captured_amount := p.captured_amount }, ?_⟩
    simp [capturePayment, h]
  · intro h
    simp [capturePayment, h, buildError, ← String.append_assoc]
  · rintro ⟨d, hd⟩
    by_cases h : inv.status = "PAID"
    · exact h
    · simp [capturePaymentInv, h, buildError] at hd
  · intro h
    refine ⟨{ id := inv.id, external_id := inv.external_id, status := inv.status
              paid_amount := inv.paid_amount, payment_id := inv.payment_id }, ?_⟩
    simp [capturePaymentInv, h]
  · intro h
    simp [capturePaymentInv, h, buildError, ← String.append_assoc]

/-- Witness for C2: a concrete still-pending payment is not captured and
the error carries the observed status. -/
theorem capturePayment_succeeds_iff_terminal_witness :
    capturePayment (.ok
      { id := "pr_9", reference_id := "medusa_1_a", status := "PENDING"
        request_amount := 5000, captured_amount := none, currency := "IDR"
        channel_code := "OVO" }) = .error
      { message :=
          "An error occurred in capturePayment: Payment not ready for capture: Payment status: PENDING"
        medusaType := some .invalidData } :=
  (capturePayment_succeeds_iff_terminal
    { id := "pr_9", reference_id := "medusa_1_a", status := "PENDING"
      request_amount := 5000, captured_amount := none, currency := "IDR"
      channel_code := "OVO" }
    { id := "inv_1", external_id := "medusa_1_a", status := "PENDING"
      amount := 5000, paid_amount := none, payment_id := none
      invoice_url := "https://example.test/i" }).2.1 (by decide)

/-- Claim C3: both status mappers return exactly the table of section 4.2
on their flavor's status set, and default to PENDING (without throwing,
i.e. they are total functions) on every other string.  The
payment-request flavor recognizes SUCCEEDED / REQUIRES_ACTION / FAILED /
CANCELED / EXPIRED (PENDING falls to the default arm, which also returns
PENDING); the invoice flavor recognizes PAID / PENDING / EXPIRED. -/
theorem mapStatus_returns_table :
    mapXenditStatusToMedusa "SUCCEEDED" = .authorized ∧
    mapXenditStatusToMedusa "REQUIRES_ACTION" = .pending ∧
    mapXenditStatusToMedusa "PENDING" = .pending ∧
    mapXenditStatusToMedusa "FAILED" = .error ∧
    mapXenditStatusToMedusa "CANCELED" = .canceled ∧
    mapXenditStatusToMedusa "EXPIRED" = .canceled ∧
    (∀ s : String, s ≠ "SUCCEEDED" → s ≠ "REQUIRES_ACTION" → s ≠ "FAILED" →
      s ≠ "CANCELED" → s ≠ "EXPIRED" → mapXenditStatusToMedusa s = .pending) ∧
    mapInvoiceStatusToMedusa "PAID" = .authorized ∧
    mapInvoiceStatusToMedusa "PENDING" = .pending ∧
    mapInvoiceStatusToMedusa "EXPIRED" = .canceled ∧
    (∀ s : String, s ≠ "PAID" → s ≠ "PENDING" → s ≠ "EXPIRED" →
      mapInvoiceStatusToMedusa s = .pending) := by
  refine ⟨by decide, by decide, by decide, by decide, by decide, by decide,
    ?_, by decide, by decide, by decide, ?_⟩
  · intro s h1 h2 h3 h4 h5
    simp [mapXenditStatusToMedusa, h1, h2, h3, h4, h5]
  · intro s h1 h2 h3
    simp [mapInvoiceStatusToMedusa, h1, h2, h3]

/-- Witness for C3: a concrete unrecognized status maps to PENDING. -/
theorem mapStatus_returns_table_witness :
    mapXenditStatusToMedusa "SETTLED" = .pending :=
  mapStatus_returns_table.2.2.2.2.2.2.1 "SETTLED"
    (by decide) (by decide) (by decide) (by decide) (by decide)

/-- Claim C4 is a code bug: the branch of `mapXenditErrorToMedusaType`
commented "Authentication errors" matches the gateway VALIDATION error
code `API_VALIDATION_ERROR`, so a 400 response carrying that
validation-coded error is categorized `Unauthorized` instead of the
`InvalidRequest` (INVALID_DATA) the claim — and the code's own
"Validation errors" branch, which this code can never reach — prescribe.
This theorem evaluates the embedded function at the failing input. -/
theorem mapXenditErrorToMedusaType_on_validation_code :
    mapXenditErrorToMedusaType 400 "API_VALIDATION_ERROR" = .unauthorized ∧
    mapXenditErrorToMedusaType 400 "API_VALIDATION_ERROR" ≠ .invalidData := by
  constructor
  · rfl
  · decide

/-- Counterexample to claim C5 as stated: a request whose payload is
missing the status field AND whose `x-callback-token` header is missing
(with a secret configured) is answered 401, not 400 — verification runs
before shape validation, so the 400 does not hold "regardless of
signature validity". -/
theorem webhook_malformed_payload_not_always_400 :
    (webhookPOST (some "whsec_1") none (some "inv_2") none).httpStatus = 401 ∧
    (webhookPOST (some "whsec_1") none (some "inv_2") none).httpStatus ≠ 400 := by
  decide

/-- Claim C5 (amended): for every request that passes verification —
header equal to the configured secret, or no secret configured — a
payload with a falsy id or a falsy status field is answered 400; when
verification fails, the 401 rejection takes precedence over the shape
check. -/
theorem webhook_malformed_payload_400_when_verified
    (envToken callbackToken invoiceId status : Option String)
    (hauth : jsTruthy envToken = true → callbackToken = envToken)
    (hshape : jsTruthy invoiceId = false ∨ jsTruthy status = false) :
    (webhookPOST envToken callbackToken invoiceId status).httpStatus = 400 := by
  by_cases he : jsTruthy envToken
  · have hc := hauth he
    subst hc
    rcases hshape with h | h <;> simp [webhookPOST, he, h]
  · rcases hshape with h | h <;> simp [webhookPOST, he, h]

/-- Witness for amended C5: with no secret configured and an empty
payload, the response is 400. -/
theorem webhook_malformed_payload_400_witness :
    (webhookPOST none none none none).httpStatus = 400 :=
  webhook_malformed_payload_400_when_verified none none none none
    (by simp [jsTruthy]) (Or.inl rfl)

/-- Claim C6: a gateway response with HTTP status 429 and a `retry-after`
header value `t` makes the client fail with the rate-limit error whose
message carries exactly `t`; the client consumes the single response it
observes — it never issues a second attempt (structural in the
embedding: `createPaymentRequest` takes one `FetchOutcome`). -/
theorem createPaymentRequest_rate_limited (resp : ErrorResponse) (t : String)
    (h429 : resp.status = 429) (hra : resp.retryAfter = some t) :
    createPaymentRequest (.err resp) = .error
      { message := "Xendit API rate limit exceeded. Please retry after " ++ t ++ " seconds."
        medusaType := some .invalidData } := by
  simp [createPaymentRequest, handleApiError, h429, hra, jsInterp]

/-- Witness for C6: the concrete 429 with `retry-after: 30`. -/
theorem createPaymentRequest_rate_limited_witness :
    createPaymentRequest (.err
      { status := 429, statusText := "Too Many Requests"
        retryAfter := some "30", body := none }) = .error
      { message := "Xendit API rate limit exceeded. Please retry after 30 seconds."
        medusaType := some .invalidData } :=
  createPaymentRequest_rate_limited
    { status := 429, statusText := "Too Many Requests"
      retryAfter := some "30", body := none } "30" rfl rfl

/-- Claim C7: `getPaymentStatus` (both flavors) is a total function of the
retrieval outcome — it never re-throws; every failed retrieval yields the
explicit ERROR status with empty data, and every successful retrieval
yields the mapped status of the retrieved object. -/
theorem getPaymentStatus_never_propagates :
    (∀ e : JsError, getPaymentStatus (.error e) = { status := .error, data := none }) ∧
    (∀ p, getPaymentStatus (.ok p) =
      { status := mapXenditStatusToMedusa p.status, data := some p }) ∧
    (∀ e : JsError, getPaymentStatusInv (.error e) = { status := .error, data := none }) ∧
    (∀ inv, getPaymentStatusInv (.ok inv) =
      { status := mapInvoiceStatusToMedusa inv.status, data := some inv }) :=
  ⟨fun _ => rfl, fun _ => rfl, fun _ => rfl, fun _ => rfl⟩

/-- Counterexample to claim C8 as stated: the generated id is a pure
function of the millisecond timestamp and the `Math.random` suffix, with
no counter or other per-process state; a run in which two calls observe
the same millisecond and the same random suffix (nothing in the code
rules this out — `Math.random` gives no inter-call distinctness
guarantee, and `toString(36).substring(7)` can even truncate different
randoms to the same, possibly empty, suffix) produces identical ids. -/
theorem referenceId_not_always_distinct :
    ¬ ∀ run : List (Nat × String),
        (run.map fun call => referenceId call.1 call.2).Pairwise (fun a b => a ≠ b) := by
  intro h
  have h2 := h [(1700000000000, "k3j9x"), (1700000000000, "k3j9x")]
  simp [List.pairwise_cons, referenceId] at h2

/-- Claim C8 (amended): two initiate calls generate distinct
reference/external ids whenever their random suffixes differ — in
particular two calls within the same millisecond collide exactly when
`Math.random` yields the same suffix — so uniqueness is probabilistic,
not guaranteed.  Stated contrapositively: equal ids force equal random
suffixes. -/
theorem referenceId_eq_implies_rand_eq (t₁ : Nat) (r₁ : String) (t₂ : Nat) (r₂ : String)
    (h : referenceId t₁ r₁ = referenceId t₂ r₂) : r₁ = r₂ := by
  unfold referenceId at h
  have hd := congrArg String.data h
  simp only [String.data_append, List.append_assoc] at hd
  have hd₂ := List.append_cancel_left hd
  simp only [List.singleton_append] at hd₂
  have hsplit := append_underscore_inj _ _ _ _
    (underscore_not_mem_repr t₁) (underscore_not_mem_repr t₂) hd₂
  exact String.ext hsplit.2

/-- Witness for amended C8: the hypothesis holds at two identical calls. -/
theorem referenceId_eq_implies_rand_eq_witness : ("k3j9x" : String) = "k3j9x" :=
  referenceId_eq_implies_rand_eq 1700000000000 "k3j9x" 1700000000000 "k3j9x" rfl

/-- Counterexample to claim C9 as stated: when the underlying initiate
fails, `updatePayment` does not return the result of `initiatePayment` on
that input — it re-wraps the error with its own operation context, so the
two results differ at this concrete input (a gateway 500 with an
unparsable body). -/
theorem updatePayment_ne_initiatePayment_on_error :
    updatePayment { amount := 10000, currency_code := "idr", channel_code := none }
        1700000000000 "k3j9x"
        (fun _ => .err { status := 500, statusText := "Internal Server Error"
                         retryAfter := none, body := none }) ≠
      initiatePayment { amount := 10000, currency_code := "idr", channel_code := none }
        1700000000000 "k3j9x"
        (fun _ => .err { status := 500, statusText := "Internal Server Error"
                         retryAfter := none, body := none }) := by
  intro h
  have h1 : updatePayment { amount := 10000, currency_code := "idr", channel_code := none }
      1700000000000 "k3j9x"
      (fun _ => .err { status := 500, statusText := "Internal Server Error"
                       retryAfter := none, body := none }) = .error
      { message := "An error occurred in updatePayment: An error occurred in initiatePayment: Xendit API error: Internal Server Error (500)"
        medusaType := some .invalidData } := rfl
  have h2 : initiatePayment { amount := 10000, currency_code := "idr", channel_code := none }
      1700000000000 "k3j9x"
      (fun _ => .err { status := 500, statusText := "Internal Server Error"
                       retryAfter := none, body := none }) = .error
      { message := "An error occurred in initiatePayment: Xendit API error: Internal Server Error (500)"
        medusaType := some .invalidData } := rfl
  rw [h1, h2] at h
  exact absurd (Except.error.inj h) (by decide)

/-- Claim C9 (amended): `updatePayment` always performs a fresh
`initiatePayment` on its input (there is no immutability check that could
fail); when that initiate succeeds, `updatePayment` returns exactly its
result (a fresh intent snapshot whose id may differ from the original);
when it fails, `updatePayment` fails with the same underlying error
re-wrapped once more with the updatePayment context. -/
theorem updatePayment_refines_initiatePayment :
    ∀ (input : InitiateInput) (now : Nat) (rand : String)
      (gateway : XenditPaymentRequest → FetchOutcome XenditPaymentResponse),
      (∀ output, initiatePayment input now rand gateway = .ok output →
        updatePayment input now rand gateway = .ok output) ∧
      (∀ e, initiatePayment input now rand gateway = .error e →
        updatePayment input now rand gateway =
          .error (buildError "An error occurred in updatePayment" e)) := by
  intro input now rand gateway
  constructor
  · intro output h
    simp [updatePayment, h]
  · intro e h
    simp [updatePayment, h]

/-- Witness for amended C9: a successful initiate passes through
`updatePayment` unchanged. -/
theorem updatePayment_refines_initiatePayment_witness :
    updatePayment { amount := 10000, currency_code := "idr", channel_code := none } 3 "k"
        (fun req => .ok { id := "pr_1", reference_id := req.reference_id, status := "PENDING"
                          request_amount := req.request_amount, captured_amount := none
                          currency := req.currency, channel_code := req.channel_code }) =
      .ok { id := "pr_1"
            data := { id := "pr_1", reference_id := "medusa_3_k", status := "PENDING"
                      amount := 10000, captured_amount := none, currency := "IDR"
                      channel_code := "OVO" } } :=
  (updatePayment_refines_initiatePayment
    { amount := 10000, currency_code := "idr", channel_code := none } 3 "k"
    (fun req => .ok { id := "pr_1", reference_id := req.reference_id, status := "PENDING"
                      request_amount := req.request_amount, captured_amount := none
                      currency := req.currency, channel_code := req.channel_code })).1
    { id := "pr_1"
      data := { id := "pr_1", reference_id := "medusa_3_k", status := "PENDING"
                amount := 10000, captured_amount := none, currency := "IDR"
                channel_code := "OVO" } } (by rfl)

/-- Claim C10: every error the facade operations initiatePayment,
authorizePayment, capturePayment (both flavors), refundPayment,
cancelPayment and updatePayment surface is a `buildError` wrapping of the
underlying error with the operation context — and `buildError` always
yields the single type INVALID_DATA with message equal to the context
concatenated with ": " and the underlying message, so the gateway
client's distinct categories survive only in the message text. -/
theorem facade_errors_collapse_to_invalid_data :
    (∀ (input : InitiateInput) (now : Nat) (rand : String)
       (gateway : XenditPaymentRequest → FetchOutcome XenditPaymentResponse) (e : JsError),
       initiatePayment input now rand gateway = .error e →
       ∃ u, e = buildError "An error occurred in initiatePayment" u) ∧
    (∀ r e, authorizePayment r = .error e →
      ∃ u, e = buildError "An error occurred in authorizePayment" u) ∧
    (∀ r e, capturePayment r = .error e →
      ∃ u, e = buildError "An error occurred in capturePayment" u) ∧
    (∀ r e, capturePaymentInv r = .error e →
      ∃ u, e = buildError "An error occurred in capturePayment" u) ∧
    (∀ r e, refundPayment r = .error e →
      ∃ u, e = buildError "An error occurred in refundPayment" u) ∧
    (∀ r e, cancelPayment r = .error e →
      ∃ u, e = buildError "An error occurred in cancelPayment" u) ∧
    (∀ (input : InitiateInput) (now : Nat) (rand : String)
       (gateway : XenditPaymentRequest → FetchOutcome XenditPaymentResponse) (e : JsError),
       updatePayment input now rand gateway = .error e →
       ∃ u, e = buildError "An error occurred in updatePayment" u) ∧
    (∀ m u, (buildError m u).medusaType = some .invalidData ∧
      (buildError m u).message = m ++ ": " ++ u.message) := by
  refine ⟨?_, ?_, ?_, ?_, ?_, ?_, ?_, fun m u => ⟨rfl, rfl⟩⟩
  · intro input now rand gateway e h
    rcases hg : gateway (buildPaymentRequest input now rand) with v | resp
    · simp [initiatePayment, createPaymentRequest, hg] at h
    · simp [initiatePayment, createPaymentRequest, hg] at h
      exact ⟨handleApiError resp, h.symm⟩
  · intro r e h
    rcases r with er | p
    · simp [authorizePayment] at h
      exact ⟨er, h.symm⟩
    · simp [authorizePayment] at h
  · intro r e h
    rcases r with er | p
    · simp [capturePayment] at h
      exact ⟨er, h.symm⟩
    · by_cases hs : p.status = "SUCCEEDED"
      · simp [capturePayment, hs] at h
      · simp [capturePayment, hs] at h
        exact ⟨_, h.symm⟩
  · intro r e h
    rcases r with er | p
    · simp [capturePaymentInv] at h
      exact ⟨er, h.symm⟩
    · by_cases hs : p.status = "PAID"
      · simp [capturePaymentInv, hs] at h
      · simp [capturePaymentInv, hs] at h
        exact ⟨_, h.symm⟩
  · intro r e h
    rcases r with er | p
    · simp [refundPayment] at h
      exact ⟨er, h.symm⟩
    · simp [refundPayment] at h
  · intro r e h
    rcases r with er | p
    · simp [cancelPayment] at h
      exact ⟨er, h.symm⟩
    · simp [cancelPayment] at h
  · intro input now rand gateway e h
    rcases hi : initiatePayment input now rand gateway with e₀ | o
    · simp [updatePayment, hi] at h
      exact ⟨e₀, h.symm⟩
    · simp [updatePayment, hi] at h

/-- Witness for C10: a concrete failed cancel surfaces the
context-wrapped INVALID_DATA error. -/
theorem facade_errors_collapse_witness :
    ∃ u, ({ message := "An error occurred in cancelPayment: nope"
            medusaType := some .invalidData } : JsError) =
      buildError "An error occurred in cancelPayment" u :=
  facade_errors_collapse_to_invalid_data.2.2.2.2.2.1
    (.error { message := "nope" })
    { message := "An error occurred in cancelPayment: nope"
      medusaType := some .invalidData } rfl

end XenditMedusa
